import Mathlib

/-!
Verification development for the virtual-assistant canvas subsystem: a shallow
embedding of the layout generators, the text-structure extraction, the graph
validator and the filename / path handling, together with theorems about them.

The embedding mirrors the TypeScript sources:
  * `src/services/canvas.ts` (plugin-side `CanvasService`),
  * `mcp-server/src/canvas.ts` (server-side `CanvasGenerator`),
  * the `VaultService` path resolution.
JavaScript strings are modelled as `String`/`List Char`, JavaScript numbers as
`ℚ` (every IEEE double is a rational, and no irrational value is ever produced
by the arithmetic that the claims depend on; `Math.cos`, `Math.sin`, `Math.PI`
are abstracted as an arbitrary numeric model `TrigModel`, one instance of which
is the actual platform library).  Id generation (`Math.random`-based in the
plugin, truncated `randomUUID` in the server) is abstracted as an id supply
`IdGen : Nat → String`: the n-th call of `generateId` during one generation
request returns `g n`.
-/

namespace VA

/-- Node kinds of the JSON-Canvas format (`'text' | 'file' | 'link' | 'group'`). -/
inductive NodeType where
  | text
  | file
  | link
  | group
deriving DecidableEq, Repr

/-- Edge attachment sides (`'top' | 'right' | 'bottom' | 'left'`). -/
inductive Side where
  | top
  | right
  | bottom
  | left
deriving DecidableEq, Repr

/-- A validated canvas node (interface `CanvasNode`); optional fields are `Option`. -/
structure CanvasNode where
  id : String
  type : NodeType
  x : ℚ
  y : ℚ
  width : ℚ
  height : ℚ
  text : Option String := none
  file : Option String := none
  label : Option String := none
  color : Option String := none
deriving DecidableEq, Repr

/-- A validated canvas edge (interface `CanvasEdge`). -/
structure CanvasEdge where
  id : String
  fromNode : String
  toNode : String
  fromSide : Option Side := none
  toSide : Option Side := none
  label : Option String := none
  color : Option String := none
deriving DecidableEq, Repr

/-- A canvas graph (interface `CanvasData`). -/
structure CanvasData where
  nodes : List CanvasNode
  edges : List CanvasEdge
deriving DecidableEq, Repr

/-- Abstract id supply: `g n` is the string returned by the n-th `generateId()`
call made during one generation request. -/
def IdGen : Type := Nat → String

/-- The id-free part of a node: everything the eye sees (geometry and content). -/
structure NodeGeom where
  type : NodeType
  x : ℚ
  y : ℚ
  width : ℚ
  height : ℚ
  text : Option String := none
  file : Option String := none
  label : Option String := none
  color : Option String := none
deriving DecidableEq, Repr

/-- Forget the id of a node, keeping geometry and content. -/
def stripId (n : CanvasNode) : NodeGeom :=
  ⟨n.type, n.x, n.y, n.width, n.height, n.text, n.file, n.label, n.color⟩

/-- Skeleton of a generated node: the index of the `generateId` call that made
its id, plus its id-free content. -/
structure NodeSkel where
  idx : Nat
  geom : NodeGeom
deriving DecidableEq, Repr

/-- Numeric model of the platform `Math` library: `cos`, `sin` and the value of
`Math.PI`.  Every IEEE double is rational, so the actual library is one
instance; all theorems below hold for every instance. -/
structure TrigModel where
  cos : ℚ → ℚ
  sin : ℚ → ℚ
  pi : ℚ

/-- One mind-map branch (`{ topic: string; subtopics: string[] }`). -/
structure Branch where
  topic : String
  subtopics : List String
deriving DecidableEq, Repr

/-- Input task for the plugin taskboard generator
(`{ title: string; status: string; priority?: string }`). -/
structure TaskInput where
  title : String
  status : String
  priority : Option String := none
deriving DecidableEq, Repr

/-- Input risk for the plugin risk-matrix generator. -/
structure RiskInput where
  title : String
  likelihood : String
  impact : String
deriving DecidableEq, Repr

/-! ## Character and string utilities mirroring the JavaScript string methods -/

/-- JavaScript `\s` (whitespace class), restricted to the code points JS treats
as whitespace. -/
def isWsChar (c : Char) : Bool :=
  c = ' ' || c = '\t' || c = '\n' || c = '\r' || c = '\x0b' || c = '\x0c' ||
  c = '\u00A0' || c = '\u1680' || ('\u2000' ≤ c && c ≤ '\u200A') ||
  c = '\u2028' || c = '\u2029' || c = '\u202F' || c = '\u205F' || c = '\u3000' || c = '\uFEFF'

/-- `str.split(sep)` on a single-character separator. -/
def splitOnChar (sep : Char) : List Char → List (List Char)
  | [] => [[]]
  | c :: cs =>
    if c = sep then [] :: splitOnChar sep cs
    else
      match splitOnChar sep cs with
      | [] => [[c]]
      | l :: ls => (c :: l) :: ls

/-- `str.trim()`. -/
def trimL (l : List Char) : List Char :=
  ((l.dropWhile isWsChar).reverse.dropWhile isWsChar).reverse

/-- `str.toLowerCase()` (ASCII, which is all the sources compare against). -/
def lowerL (l : List Char) : List Char := l.map Char.toLower

/-- `str.toLowerCase()` on `String`. -/
def lowerStr (s : String) : String := ⟨lowerL s.data⟩

/-- `haystack.includes(needle)`. -/
def containsSub (sub : List Char) : List Char → Bool
  | [] => sub.isEmpty
  | c :: cs => sub.isPrefixOf (c :: cs) || containsSub sub cs

/-- `line.replace(/^[-*•]\s*/, '')`. -/
def stripBulletL (l : List Char) : List Char :=
  match l with
  | c :: cs => if c = '-' || c = '*' || c = '•' then cs.dropWhile isWsChar else l
  | [] => []

/-- `line.replace(/^#\s*/, '')`. -/
def stripHashL (l : List Char) : List Char :=
  match l with
  | '#' :: cs => cs.dropWhile isWsChar
  | _ => l

/-- `line.replace(/^##?\s*/, '')`. -/
def stripHash2L (l : List Char) : List Char :=
  match l with
  | '#' :: '#' :: cs => cs.dropWhile isWsChar
  | '#' :: cs => cs.dropWhile isWsChar
  | _ => l

/-- `description.split('\n').filter(l => l.trim())`. -/
def nonBlankLines (s : String) : List (List Char) :=
  (splitOnChar '\n' s.data).filter (fun l => !(trimL l).isEmpty)

/-- `s.charAt(0).toUpperCase() + s.slice(1)`. -/
def capitalize (s : String) : String :=
  match s.data with
  | [] => ""
  | c :: cs => ⟨c.toUpper :: cs⟩

/-- `s.charAt(0).toUpperCase()` as a string. -/
def firstCharUpper (s : String) : String :=
  match s.data with
  | [] => ""
  | c :: _ => ⟨[c.toUpper]⟩

/-- JavaScript `Array.prototype.indexOf` (first index, `-1` when absent). -/
def jsIndexOf (l : List String) (s : String) : Int :=
  match l.findIdx? (fun a => a = s) with
  | some n => (n : Int)
  | none => -1

/-! ## Filename sanitization (identical in both implementations)

`sanitizeFilename` first replaces every character of the class
`[\\/:*?"<>|]` by `-`, then collapses every whitespace run to a single `-`,
then truncates to 100 characters. -/

/-- Characters of the regex class `[\\/:*?"<>|]`. -/
def isBannedFilenameChar (c : Char) : Bool :=
  c = '\\' || c = '/' || c = ':' || c = '*' || c = '?' || c = '"' ||
  c = '<' || c = '>' || c = '|'

/-- `replace(/\s+/g, '-')`: the flag records whether the previous character was
whitespace (so a whole run yields a single dash). -/
def collapseWsAux : Bool → List Char → List Char
  | _, [] => []
  | prevWs, c :: cs =>
    if isWsChar c then
      if prevWs then collapseWsAux true cs
      else '-' :: collapseWsAux true cs
    else c :: collapseWsAux false cs

/-- `sanitizeFilename` from `canvas.ts` (both copies are textually identical). -/
def sanitizeFilename (name : String) : String :=
  let step1 := name.data.map (fun c => if isBannedFilenameChar c then '-' else c)
  let step2 := collapseWsAux false step1
  ⟨step2.take 100⟩

/-! ## VaultService path resolution

`resolvePath` calls Node's `path.resolve(vaultPath, relativePath)` and then
checks `resolved.startsWith(vaultPath)`.  POSIX `path.resolve` is modelled
segment-wise. -/

/-- Split a path on `/`. -/
def splitPath (s : String) : List String :=
  (splitOnChar '/' s.data).map (fun l => ⟨l⟩)

/-- Process path segments: drop empty and `.` segments, let `..` pop. -/
def normalizeSegs (segs : List String) : List String :=
  segs.foldl
    (fun acc seg =>
      if seg = "" || seg = "." then acc
      else if seg = ".." then acc.dropLast
      else acc ++ [seg]) []

/-- Join normalized segments back into an absolute path. -/
def joinSegs (segs : List String) : String :=
  segs.foldl (fun acc s => acc ++ "/" ++ s) ""

/-- POSIX `path.resolve(base, rel)` for an absolute `base`. -/
def pathResolve (base rel : String) : String :=
  let full := if "/".data.isPrefixOf rel.data then rel else base ++ "/" ++ rel
  let segs := normalizeSegs (splitPath full)
  if segs.isEmpty then "/" else joinSegs segs

/-- `VaultService.resolvePath`: resolve, then reject unless the resolved path
starts (as a string) with the vault path. -/
def vaultResolvePath (vaultPath relativePath : String) : Except String String :=
  let resolved := pathResolve vaultPath relativePath
  if vaultPath.data.isPrefixOf resolved.data then Except.ok resolved
  else Except.error "Path traversal not allowed"

/-- Genuine containment in the root directory subtree: the path is the root
itself or lies strictly below it. -/
def insideRoot (root p : String) : Bool :=
  p = root || (root ++ "/").data.isPrefixOf p.data

/-! ## Shared layout helpers (textually identical in both implementations) -/

/-- The four Kanban columns. -/
def taskboardColumns : List String := ["To Do", "In Progress", "Review", "Done"]

/-- `CanvasService.mapStatusToColumn`. -/
def mapStatusToColumn (status : String) : String :=
  let s := lowerStr status
  if s = "pending" then "To Do"
  else if s = "todo" then "To Do"
  else if s = "in-progress" then "In Progress"
  else if s = "inprogress" then "In Progress"
  else if s = "review" then "Review"
  else if s = "completed" then "Done"
  else if s = "done" then "Done"
  else "To Do"

/-- `getColumnColor` (same in both implementations). -/
def getColumnColor (column : String) : String :=
  if column = "To Do" then "2"
  else if column = "In Progress" then "3"
  else if column = "Review" then "5"
  else if column = "Done" then "4"
  else "1"

/-- `CanvasService.getPriorityColor`. -/
def getPriorityColor (priority : Option String) : String :=
  let key :=
    match priority with
    | some p => if lowerStr p = "" then "medium" else lowerStr p
    | none => "medium"
  if key = "high" then "1"
  else if key = "medium" then "3"
  else if key = "low" then "4"
  else "3"

/-- The likelihood/impact scale. -/
def riskLevels : List String := ["low", "medium", "high"]

/-- `getRiskColor` (same in both implementations): 3-level score coloring. -/
def getRiskColor (impact likelihood : String) : String :=
  let score := (jsIndexOf riskLevels impact + 1) * (jsIndexOf riskLevels likelihood + 1)
  if score ≥ 6 then "1" else if score ≥ 3 then "2" else "4"

/-- `getClosestSide` (same in both implementations): 4-way compass snap by the
dominant displacement axis. -/
def getClosestSide (fromX fromY toX toY : ℚ) : Side :=
  let dx := toX - fromX
  let dy := toY - fromY
  if |dx| > |dy| then (if dx > 0 then Side.right else Side.left)
  else (if dy > 0 then Side.bottom else Side.top)

/-- The opposite compass side. -/
def oppositeSide : Side → Side
  | Side.top => Side.bottom
  | Side.bottom => Side.top
  | Side.left => Side.right
  | Side.right => Side.left

/-- Skeleton of a generated mind-map edge: counter indices of its id and of its
two endpoint node ids, plus the two anchor points its sides are computed from. -/
structure EdgeSkel where
  idx : Nat
  fromIdx : Nat
  toIdx : Nat
  p : ℚ × ℚ
  q : ℚ × ℚ
deriving DecidableEq, Repr

/-- Re-attach ids from the supply `g` to a node skeleton. -/
def instNode (g : IdGen) (s : NodeSkel) : CanvasNode :=
  { id := g s.idx, type := s.geom.type, x := s.geom.x, y := s.geom.y,
    width := s.geom.width, height := s.geom.height, text := s.geom.text,
    file := s.geom.file, label := s.geom.label, color := s.geom.color }

/-- Re-attach ids from the supply `g` to an edge skeleton; the sides are the
closest-side values of the recorded anchor points. -/
def instEdge (g : IdGen) (s : EdgeSkel) : CanvasEdge :=
  { id := g s.idx, fromNode := g s.fromIdx, toNode := g s.toIdx,
    fromSide := some (getClosestSide s.p.1 s.p.2 s.q.1 s.q.2),
    toSide := some (getClosestSide s.q.1 s.q.2 s.p.1 s.p.2) }

/-! ## Plugin-side layout generators (`CanvasService` in `src/services/canvas.ts`) -/

/-- The `**title**\n\nPriority: ...` text of a plugin task node. -/
def taskNodeText (title : String) (priority : Option String) : String :=
  let pr :=
    match priority with
    | some p => if p = "" then "Medium" else p
    | none => "Medium"
  "**" ++ title ++ "**\n\nPriority: " ++ pr

/-- The four column group nodes of `createTaskboardCanvas` (ids 0..3; the
height counts the tasks landing in the column). -/
def taskboardHeaderNodes (g : IdGen) (tasks : List TaskInput) : List CanvasNode :=
  taskboardColumns.enum.map (fun p =>
    { id := g p.1
      type := NodeType.group
      x := (p.1 : ℚ) * (250 + 20)
      y := 0
      width := 250
      height := 50 + (((tasks.filter (fun t => mapStatusToColumn t.status == p.2)).length : ℚ) + 1) * (80 + 20)
      label := some p.2
      color := some (getColumnColor p.2) })

/-- The task-node loop of `createTaskboardCanvas`: one text node per task,
placed by a per-column row counter. -/
def taskboardTasksLoop (g : IdGen) : Nat → (String → Nat) → List TaskInput → List CanvasNode
  | _, _, [] => []
  | ctr, counts, task :: rest =>
    let column := mapStatusToColumn task.status
    let colIndex := jsIndexOf taskboardColumns column
    let rowIndex := counts column
    { id := g ctr
      type := NodeType.text
      x := (colIndex : ℚ) * (250 + 20) + 20
      y := 50 + 20 + (rowIndex : ℚ) * (80 + 20)
      width := 250 - 2 * 20
      height := 80
      text := some (taskNodeText task.title task.priority)
      color := some (getPriorityColor task.priority) } ::
    taskboardTasksLoop g (ctr + 1) (fun c => if c = column then counts c + 1 else counts c) rest

/-- `CanvasService.createTaskboardCanvas`. -/
def createTaskboardCanvas (g : IdGen) (tasks : List TaskInput) : CanvasData :=
  ⟨taskboardHeaderNodes g tasks ++ taskboardTasksLoop g 4 (fun _ => 0) tasks, []⟩

/-- The 3×3 grid of group cells of `createRiskMatrixCanvas` (ids 0..8, high
impact rendered at the top via the inverted row index). -/
def riskMatrixCellNodes (g : IdGen) : List CanvasNode :=
  riskLevels.enum.flatMap (fun pi =>
    riskLevels.enum.map (fun pj =>
      { id := g (pi.1 * 3 + pj.1)
        type := NodeType.group
        x := (pj.1 : ℚ) * (250 + 20)
        y := ((2 : ℚ) - (pi.1 : ℚ)) * (200 + 20)
        width := 250
        height := 200
        label := some (capitalize pi.2 ++ " Impact / " ++ capitalize pj.2 ++ " Likelihood")
        color := some (getRiskColor pi.2 pj.2) }))

/-- The per-cell occupancy key `impact-likelihood`. -/
def riskKey (impact likelihood : String) : String := impact ++ "-" ++ likelihood

/-- The risk-node loop of `createRiskMatrixCanvas`. -/
def riskMatrixRiskLoop (g : IdGen) : Nat → (String → Nat) → List RiskInput → List CanvasNode
  | _, _, [] => []
  | ctr, counts, risk :: rest =>
    let key := riskKey risk.impact risk.likelihood
    let impactIndex := jsIndexOf riskLevels risk.impact
    let likelihoodIndex := jsIndexOf riskLevels risk.likelihood
    let count := counts key
    { id := g ctr
      type := NodeType.text
      x := (likelihoodIndex : ℚ) * (250 + 20) + 20 + ((count % 2 : Nat) : ℚ) * 100
      y := ((2 : ℚ) - (impactIndex : ℚ)) * (200 + 20) + 20 + ((count / 2 : Nat) : ℚ) * 60
      width := 100
      height := 50
      text := some risk.title
      color := some (getRiskColor risk.impact risk.likelihood) } ::
    riskMatrixRiskLoop g (ctr + 1) (fun k => if k = key then counts k + 1 else counts k) rest

/-- `CanvasService.createRiskMatrixCanvas`. -/
def createRiskMatrixCanvas (g : IdGen) (risks : List RiskInput) : CanvasData :=
  ⟨riskMatrixCellNodes g ++ riskMatrixRiskLoop g 9 (fun _ => 0) risks, []⟩

/-- The subtopic loop shared by the two mind-map generators; `txtF` is the
subtopic text transform (identity in the plugin, 30-char truncation in the
server).  Returns (nodes, edges, next id counter). -/
def mindMapSubsLoop (T : TrigModel) (g : IdGen) (txtF : String → String) (branchId : String)
    (brX brY subStartAngle subAngleStep : ℚ) :
    Nat → Nat → List String → List CanvasNode × List CanvasEdge × Nat
  | ctr, _, [] => ([], [], ctr)
  | ctr, j, sub :: rest =>
    let subAngle := subStartAngle + subAngleStep * (j : ℚ)
    let subX := brX + T.cos subAngle * 150
    let subY := brY + T.sin subAngle * 150
    let node : CanvasNode :=
      { id := g ctr, type := NodeType.text, x := subX - 50, y := subY - 20,
        width := 100, height := 40, text := some (txtF sub) }
    let edge : CanvasEdge :=
      { id := g (ctr + 1), fromNode := branchId, toNode := g ctr,
        fromSide := some (getClosestSide brX brY subX subY),
        toSide := some (getClosestSide subX subY brX brY) }
    let r := mindMapSubsLoop T g txtF branchId brX brY subStartAngle subAngleStep (ctr + 2) (j + 1) rest
    (node :: r.1, edge :: r.2.1, r.2.2)

/-- The branch loop shared by the two mind-map generators; `subsSel` selects
the subtopics actually rendered (all of them in the plugin, the first 5 in the
server). -/
def mindMapBranchLoop (T : TrigModel) (g : IdGen) (txtF : String → String)
    (subsSel : List String → List String) (centralId : String) (angleStep : ℚ) :
    Nat → Nat → List Branch → List CanvasNode × List CanvasEdge × Nat
  | ctr, _, [] => ([], [], ctr)
  | ctr, i, b :: rest =>
    let angle := angleStep * (i : ℚ) - T.pi / 2
    let brX := 500 + T.cos angle * 300
    let brY := 400 + T.sin angle * 300
    let branchNode : CanvasNode :=
      { id := g ctr, type := NodeType.text, x := brX - 60, y := brY - 30,
        width := 120, height := 60, text := some ("## " ++ b.topic),
        color := some (toString (i % 6 + 1)) }
    let branchEdge : CanvasEdge :=
      { id := g (ctr + 1), fromNode := centralId, toNode := g ctr,
        fromSide := some (getClosestSide 500 400 brX brY),
        toSide := some (getClosestSide brX brY 500 400) }
    let sub := mindMapSubsLoop T g txtF (g ctr) brX brY (angle - T.pi / 6)
      ((T.pi / 3) / ((max (b.subtopics.length - 1) 1 : Nat) : ℚ)) (ctr + 2) 0 (subsSel b.subtopics)
    let rest' := mindMapBranchLoop T g txtF subsSel centralId angleStep sub.2.2 (i + 1) rest
    (branchNode :: sub.1 ++ rest'.1, branchEdge :: sub.2.1 ++ rest'.2.1, rest'.2.2)

/-- `CanvasService.createMindMapCanvas` (plugin side): renders ALL subtopics of
every branch (no truncation). -/
def createMindMapCanvas (T : TrigModel) (g : IdGen) (central : String) (branches : List Branch) :
    CanvasData :=
  let centralNode : CanvasNode :=
    { id := g 0, type := NodeType.text, x := 500 - 75, y := 400 - 40,
      width := 150, height := 80, text := some ("# " ++ central), color := some "5" }
  let angleStep := 2 * T.pi / (branches.length : ℚ)
  let r := mindMapBranchLoop T g (fun s => s) (fun l => l) (g 0) angleStep 1 0 branches
  ⟨centralNode :: r.1, r.2.1⟩

/-! ## Server-side generators (`CanvasGenerator` in `mcp-server/src/canvas.ts`) -/

/-- The four fixed-height column groups of `generateTaskboardFromDescription`. -/
def serverTaskboardHeaders (g : IdGen) : List CanvasNode :=
  taskboardColumns.enum.map (fun p =>
    { id := g p.1, type := NodeType.group, x := (p.1 : ℚ) * (250 + 20), y := 0,
      width := 250, height := 600, label := some p.2, color := some (getColumnColor p.2) })

/-- The line loop of `generateTaskboardFromDescription`: keyword scan moves the
sticky column cursor, too-short lines are dropped (after the cursor update),
priority substrings pick the color. -/
def serverTaskboardLoop (g : IdGen) : Nat → Nat → List Nat → List (List Char) → List CanvasNode
  | _, _, _, [] => []
  | ctr, currentColumn, counts, line :: rest =>
    let lineLower := lowerL line
    let cc :=
      if containsSub "todo".data lineLower || containsSub "to do".data lineLower ||
         containsSub "pending".data lineLower then 0
      else if containsSub "in progress".data lineLower || containsSub "working".data lineLower then 1
      else if containsSub "review".data lineLower || containsSub "testing".data lineLower then 2
      else if containsSub "done".data lineLower || containsSub "complete".data lineLower then 3
      else currentColumn
    let taskText := trimL (stripBulletL line)
    if taskText.length < 3 then serverTaskboardLoop g ctr cc counts rest
    else
      let pc : String × Option String :=
        if containsSub "high".data lineLower || containsSub "urgent".data lineLower ||
           containsSub "!".data lineLower then ("high", some "1")
        else if containsSub "low".data lineLower then ("low", some "4")
        else ("medium", none)
      let cnt := counts.getD cc 0
      { id := g ctr, type := NodeType.text,
        x := (cc : ℚ) * (250 + 20) + 20,
        y := 60 + (cnt : ℚ) * (80 + 10),
        width := 250 - 2 * 20, height := 80,
        text := some ("**" ++ (⟨taskText⟩ : String) ++ "**\n\nPriority: " ++ pc.1),
        color := pc.2 } ::
      serverTaskboardLoop g (ctr + 1) cc (counts.set cc (cnt + 1)) rest

/-- `CanvasGenerator.generateTaskboardFromDescription`. -/
def generateTaskboardFromDescription (g : IdGen) (description : String) : CanvasData :=
  let nodes := serverTaskboardHeaders g ++
    serverTaskboardLoop g 4 0 [0, 0, 0, 0] (nonBlankLines description)
  -- When no task was parsed the array still holds only the 4 column groups and
  -- the id counter still stands at 4, so the placeholder draws id number 4.
  if nodes.length = 4 then
    ⟨nodes ++ [{ id := g 4, type := NodeType.text, x := 20, y := 60,
                 width := 250 - 2 * 20, height := 80,
                 text := some ("Add tasks from:\n\n" ++ (⟨description.data.take 100⟩ : String) ++ "...") }], []⟩
  else ⟨nodes, []⟩

/-- The two axis labels and nine grid cells of
`generateRiskMatrixFromDescription` (ids 0..10). -/
def serverRiskMatrixStatic (g : IdGen) : List CanvasNode :=
  [{ id := g 0, type := NodeType.text, x := -100, y := 200 + 20, width := 80, height := 40,
     text := some "**Impact**" },
   { id := g 1, type := NodeType.text, x := 250 + 20, y := 3 * (200 + 20) + 20, width := 100,
     height := 40, text := some "**Likelihood**" }] ++
  riskLevels.enum.flatMap (fun pi =>
    riskLevels.enum.map (fun pj =>
      { id := g (2 + (pi.1 * 3 + pj.1)), type := NodeType.group,
        x := (pj.1 : ℚ) * (250 + 20), y := ((2 : ℚ) - (pi.1 : ℚ)) * (200 + 20),
        width := 250, height := 200,
        label := some (firstCharUpper pi.2 ++ "I / " ++ firstCharUpper pj.2 ++ "L"),
        color := some (getRiskColor pi.2 pj.2) }))

/-- The line loop of `generateRiskMatrixFromDescription`: likelihood and impact
are inferred per line by substring scan, placement uses a per-cell counter. -/
def serverRiskLoop (g : IdGen) : Nat → (String → Nat) → List (List Char) → List CanvasNode
  | _, _, [] => []
  | ctr, counts, line :: rest =>
    let lineLower := lowerL line
    let riskText := trimL (stripBulletL line)
    if riskText.length < 3 then serverRiskLoop g ctr counts rest
    else
      let likelihood :=
        if containsSub "high likelihood".data lineLower || containsSub "likely".data lineLower then "high"
        else if containsSub "low likelihood".data lineLower || containsSub "unlikely".data lineLower then "low"
        else "medium"
      let impact :=
        if containsSub "high impact".data lineLower || containsSub "critical".data lineLower then "high"
        else if containsSub "low impact".data lineLower || containsSub "minor".data lineLower then "low"
        else "medium"
      let key := riskKey impact likelihood
      let c := counts key
      let impactIndex := jsIndexOf riskLevels impact
      let likelihoodIndex := jsIndexOf riskLevels likelihood
      { id := g ctr, type := NodeType.text,
        x := (likelihoodIndex : ℚ) * (250 + 20) + 20 + ((c % 2 : Nat) : ℚ) * 100,
        y := ((2 : ℚ) - (impactIndex : ℚ)) * (200 + 20) + 20 + ((c / 2 : Nat) : ℚ) * 50,
        width := 100, height := 40,
        text := some (⟨riskText.take 50⟩ : String),
        color := some (getRiskColor impact likelihood) } ::
      serverRiskLoop g (ctr + 1) (fun k => if k = key then counts k + 1 else counts k) rest

/-- `CanvasGenerator.generateRiskMatrixFromDescription`. -/
def generateRiskMatrixFromDescription (g : IdGen) (description : String) : CanvasData :=
  ⟨serverRiskMatrixStatic g ++ serverRiskLoop g 11 (fun _ => 0) (nonBlankLines description), []⟩

/-- State of the mind-map description scan: central theme, sealed branches and
the currently open branch. -/
structure MMParseState where
  centralTheme : String
  branches : List Branch
  currentBranch : Option Branch
deriving DecidableEq, Repr

/-- One line of the mind-map description scan of
`generateMindMapFromDescription` (the pair carries the line index). -/
def mindMapParseStep (st : MMParseState) (p : Nat × List Char) : MMParseState :=
  let line := p.2
  let trimmed := trimL line
  let isSubItem := "  ".data.isPrefixOf line || "\t".data.isPrefixOf line ||
    "-".data.isPrefixOf trimmed
  if p.1 = 0 then
    { st with centralTheme := ⟨stripBulletL (stripHashL trimmed)⟩ }
  else if !isSubItem && trimmed.length > 2 then
    { centralTheme := st.centralTheme
      branches := st.branches ++ (match st.currentBranch with | some b => [b] | none => [])
      currentBranch := some ⟨⟨stripHash2L (stripBulletL trimmed)⟩, []⟩ }
  else if isSubItem && st.currentBranch.isSome && trimmed.length > 2 then
    match st.currentBranch with
    | some b => { st with currentBranch := some ⟨b.topic, b.subtopics ++ [⟨stripBulletL trimmed⟩]⟩ }
    | none => st
  else st

/-- The central theme and branch list extracted by
`generateMindMapFromDescription` from its description argument. -/
def parseMindMapDescription (description : String) : String × List Branch :=
  let st := ((nonBlankLines description).enum).foldl mindMapParseStep ⟨"Central Topic", [], none⟩
  (st.centralTheme, st.branches ++ (match st.currentBranch with | some b => [b] | none => []))

/-- `CanvasGenerator.generateMindMapFromDescription`: parse, then lay out with
subtopics truncated to the first 5 and subtopic text truncated to 30 chars. -/
def generateMindMapFromDescription (T : TrigModel) (g : IdGen) (description : String) :
    CanvasData :=
  let P := parseMindMapDescription description
  let centralNode : CanvasNode :=
    { id := g 0, type := NodeType.text, x := 500 - 75, y := 400 - 40,
      width := 150, height := 80, text := some ("# " ++ P.1), color := some "5" }
  let angleStep := if 0 < P.2.length then 2 * T.pi / (P.2.length : ℚ) else 0
  let r := mindMapBranchLoop T g (fun s => (⟨s.data.take 30⟩ : String))
    (fun l => if 0 < l.length then l.take 5 else []) (g 0) angleStep 1 0 P.2
  ⟨centralNode :: r.1, r.2.1⟩

/-! ## The graph validator (`CanvasService.validateAndFixCanvasData`)

Raw (pre-validation) nodes and edges model arbitrary upstream JSON: every field
may be missing or of the wrong type (both encoded as `none`). -/

/-- A raw node as it may arrive from the upstream model output. -/
structure RawNode where
  id : Option String := none
  type : Option NodeType := none
  x : Option ℚ := none
  y : Option ℚ := none
  width : Option ℚ := none
  height : Option ℚ := none
  text : Option String := none
  file : Option String := none
  label : Option String := none
  color : Option String := none
deriving DecidableEq, Repr

/-- A raw edge as it may arrive from the upstream model output. -/
structure RawEdge where
  id : Option String := none
  fromNode : Option String := none
  toNode : Option String := none
  fromSide : Option Side := none
  toSide : Option Side := none
  label : Option String := none
  color : Option String := none
deriving DecidableEq, Repr

/-- A raw graph as it may arrive from the upstream model output. -/
structure RawCanvasData where
  nodes : List RawNode
  edges : List RawEdge
deriving DecidableEq, Repr

/-- JavaScript truthiness of an optional string (the empty string is falsy). -/
def strTruthy : Option String → Option String
  | some s => if s = "" then none else some s
  | none => none

/-- Map a list while threading the `generateId` call counter. -/
def mapWithCounter (f : Nat → α → β × Nat) : Nat → List α → List β × Nat
  | n, [] => ([], n)
  | n, a :: as =>
    let r := f n a
    let rest := mapWithCounter f r.2 as
    (r.1 :: rest.1, rest.2)

/-- Normalization of one raw node: generate an id when the given one is falsy,
default type/geometry, carry optional fields only when truthy. -/
def normalizeNode (g : IdGen) (n : Nat) (node : RawNode) : CanvasNode × Nat :=
  let idp : String × Nat :=
    match strTruthy node.id with
    | some s => (s, n)
    | none => (g n, n + 1)
  ({ id := idp.1
     type := node.type.getD NodeType.text
     x := node.x.getD 0
     y := node.y.getD 0
     width := node.width.getD 200
     height := node.height.getD 100
     text := strTruthy node.text
     file := strTruthy node.file
     label := strTruthy node.label
     color := strTruthy node.color }, idp.2)

/-- Normalization of one kept raw edge (only ever applied to edges whose
endpoints passed the reference check). -/
def normalizeEdge (g : IdGen) (n : Nat) (edge : RawEdge) : CanvasEdge × Nat :=
  let idp : String × Nat :=
    match strTruthy edge.id with
    | some s => (s, n)
    | none => (g n, n + 1)
  ({ id := idp.1
     fromNode := edge.fromNode.getD ""
     toNode := edge.toNode.getD ""
     fromSide := edge.fromSide
     toSide := edge.toSide
     label := strTruthy edge.label
     color := strTruthy edge.color }, idp.2)

/-- The reference check of the validator: both endpoints are present and name
an id of the (already normalized) node set. -/
def edgeRefsOk (nodeIds : List String) (edge : RawEdge) : Bool :=
  (match edge.fromNode with | some s => decide (s ∈ nodeIds) | none => false) &&
  (match edge.toNode with | some s => decide (s ∈ nodeIds) | none => false)

/-- The normalized node list of the validator. -/
def validatedNodes (g : IdGen) (data : RawCanvasData) : List CanvasNode :=
  (mapWithCounter (normalizeNode g) 0 data.nodes).1

/-- `CanvasService.validateAndFixCanvasData`: normalize every node, then keep
exactly the edges whose endpoints resolve in the normalized node set. -/
def validateAndFixCanvasData (g : IdGen) (data : RawCanvasData) : CanvasData :=
  let nodes := validatedNodes g data
  let nodeIds := nodes.map (fun n => n.id)
  let kept := data.edges.filter (edgeRefsOk nodeIds)
  ⟨nodes, (mapWithCounter (normalizeEdge g) (mapWithCounter (normalizeNode g) 0 data.nodes).2 kept).1⟩

/-! ## Id-free skeletons of the mind-map loops

The loops only use the id supply at counter positions that are a function of
the input; the skeletons record those positions, so that a run of the loop is
exactly the instantiation of the skeleton with the supply. -/

/-- Skeleton of `mindMapSubsLoop`. -/
def mindMapSubsSkel (T : TrigModel) (txtF : String → String) (branchIdx : Nat)
    (brX brY subStartAngle subAngleStep : ℚ) :
    Nat → Nat → List String → List NodeSkel × List EdgeSkel × Nat
  | ctr, _, [] => ([], [], ctr)
  | ctr, j, sub :: rest =>
    let subAngle := subStartAngle + subAngleStep * (j : ℚ)
    let subX := brX + T.cos subAngle * 150
    let subY := brY + T.sin subAngle * 150
    let n : NodeSkel := ⟨ctr, ⟨NodeType.text, subX - 50, subY - 20, 100, 40, some (txtF sub), none, none, none⟩⟩
    let e : EdgeSkel := ⟨ctr + 1, branchIdx, ctr, (brX, brY), (subX, subY)⟩
    let r := mindMapSubsSkel T txtF branchIdx brX brY subStartAngle subAngleStep (ctr + 2) (j + 1) rest
    (n :: r.1, e :: r.2.1, r.2.2)

/-- Skeleton of `mindMapBranchLoop`. -/
def mindMapBranchSkel (T : TrigModel) (txtF : String → String)
    (subsSel : List String → List String) (centralIdx : Nat) (angleStep : ℚ) :
    Nat → Nat → List Branch → List NodeSkel × List EdgeSkel × Nat
  | ctr, _, [] => ([], [], ctr)
  | ctr, i, b :: rest =>
    let angle := angleStep * (i : ℚ) - T.pi / 2
    let brX := 500 + T.cos angle * 300
    let brY := 400 + T.sin angle * 300
    let bn : NodeSkel := ⟨ctr, ⟨NodeType.text, brX - 60, brY - 30, 120, 60,
      some ("## " ++ b.topic), none, none, some (toString (i % 6 + 1))⟩⟩
    let be : EdgeSkel := ⟨ctr + 1, centralIdx, ctr, ((500 : ℚ), (400 : ℚ)), (brX, brY)⟩
    let s := mindMapSubsSkel T txtF ctr brX brY (angle - T.pi / 6)
      ((T.pi / 3) / ((max (b.subtopics.length - 1) 1 : Nat) : ℚ)) (ctr + 2) 0 (subsSel b.subtopics)
    let r := mindMapBranchSkel T txtF subsSel centralIdx angleStep s.2.2 (i + 1) rest
    (bn :: s.1 ++ r.1, be :: s.2.1 ++ r.2.1, r.2.2)

/-- The skeleton of the plugin mind-map generator's branch loop. -/
def pluginMindSkel (T : TrigModel) (bs : List Branch) : List NodeSkel × List EdgeSkel × Nat :=
  mindMapBranchSkel T (fun s => s) (fun l => l) 0 (2 * T.pi / (bs.length : ℚ)) 1 0 bs

/-- The skeleton of the server mind-map generator's branch loop. -/
def serverMindSkel (T : TrigModel) (d : String) : List NodeSkel × List EdgeSkel × Nat :=
  mindMapBranchSkel T (fun s => (⟨s.data.take 30⟩ : String))
    (fun l => if 0 < l.length then l.take 5 else []) 0
    (if 0 < (parseMindMapDescription d).2.length then
      2 * T.pi / ((parseMindMapDescription d).2.length : ℚ) else 0) 1 0
    (parseMindMapDescription d).2

/-- Skeleton of the central node (counter index 0). -/
def centralSkel (txt : String) : NodeSkel :=
  ⟨0, NodeType.text, 500 - 75, 400 - 40, 150, 80, some ("# " ++ txt), none, none, some "5"⟩

/-- Well-formedness of the counter indices of a skeleton-loop result starting
at counter `ctr`: the final counter does not decrease, every node and edge
index lies in the consumed counter window, and both index lists are strictly
increasing. -/
def SkelIdxOk (ctr : Nat) (r : List NodeSkel × List EdgeSkel × Nat) : Prop :=
  ctr ≤ r.2.2 ∧
  (∀ k ∈ r.1.map NodeSkel.idx, ctr ≤ k ∧ k < r.2.2) ∧
  (∀ k ∈ r.2.1.map EdgeSkel.idx, ctr ≤ k ∧ k < r.2.2) ∧
  (r.1.map NodeSkel.idx).Pairwise (· < ·) ∧
  (r.2.1.map EdgeSkel.idx).Pairwise (· < ·)

/-! ## Concrete instances used by witnesses and counterexamples -/

/-- A degenerate id supply (all calls collide), enough where ids do not matter. -/
def gZ : IdGen := fun _ => "gen"

/-- An injective id supply. -/
def gInj : IdGen := fun n => ⟨List.replicate n 'a'⟩

/-- A concrete numeric model of `Math` for evaluation. -/
def TZ : TrigModel := ⟨fun _ => 1, fun _ => 0, 3⟩

/-- Raw graph with two well-identified nodes, one resolving edge and one
dangling edge. -/
def rawC1 : RawCanvasData :=
  ⟨[{ id := some "a" }, { id := some "b" }],
   [{ fromNode := some "a", toNode := some "b" },
    { fromNode := some "a", toNode := some "zz" }]⟩

/-- Raw graph whose two nodes carry the same caller-supplied id. -/
def dupIdRaw : RawCanvasData :=
  ⟨[{ id := some "a" }, { id := some "a" }], []⟩

/-- The taskboard scenario input of the specification. -/
def tbScenarioInput : String := "- Fix login bug (high)\n- Write docs\n- done: deploy to prod"

/-- The risk-matrix scenario input of the specification. -/
def rmScenarioInput : String := "Server outage - high impact, likely\nMinor UI glitch - low impact"

/-! ## Theorems about filename sanitization (claim C9) -/

theorem mem_collapseWsAux :
    ∀ (l : List Char) (b : Bool) (c : Char), c ∈ collapseWsAux b l →
      c = '-' ∨ (c ∈ l ∧ isWsChar c = false) := by
  intro l
  induction l with
  | nil => intro b c hc; simp [collapseWsAux] at hc
  | cons a cs ih =>
    intro b c hc
    by_cases ha : isWsChar a = true
    · cases b with
      | true =>
        rw [collapseWsAux, if_pos ha, if_pos rfl] at hc
        rcases ih true c hc with h | ⟨h1, h2⟩
        · exact Or.inl h
        · exact Or.inr ⟨List.mem_cons_of_mem a h1, h2⟩
      | false =>
        rw [collapseWsAux, if_pos ha, if_neg (by simp)] at hc
        rcases List.mem_cons.mp hc with h | h
        · exact Or.inl h
        · rcases ih true c h with h' | ⟨h1, h2⟩
          · exact Or.inl h'
          · exact Or.inr ⟨List.mem_cons_of_mem a h1, h2⟩
    · rw [collapseWsAux, if_neg ha] at hc
      rcases List.mem_cons.mp hc with h | h
      · refine Or.inr ⟨?_, ?_⟩
        · rw [h]; exact List.mem_cons_self a cs
        · rw [h]; simpa using ha
      · rcases ih false c h with h' | ⟨h1, h2⟩
        · exact Or.inl h'
        · exact Or.inr ⟨List.mem_cons_of_mem a h1, h2⟩

theorem collapseWsAux_eq_self :
    ∀ (l : List Char), (∀ c ∈ l, isWsChar c = false) → ∀ b, collapseWsAux b l = l := by
  intro l
  induction l with
  | nil => intro _ b; rfl
  | cons a cs ih =>
    intro h b
    have ha : isWsChar a = false := h a (List.mem_cons_self a cs)
    rw [collapseWsAux, if_neg (by simp [ha]),
      ih (fun c hc => h c (List.mem_cons_of_mem a hc)) false]

theorem mem_map_bannedRepl (l : List Char) (c : Char)
    (hc : c ∈ l.map (fun c => if isBannedFilenameChar c then '-' else c)) :
    isBannedFilenameChar c = false := by
  rcases List.mem_map.mp hc with ⟨d, _, rfl⟩
  by_cases h : isBannedFilenameChar d = true
  · rw [if_pos h]; decide
  · rw [if_neg h]; simpa using h

theorem map_bannedRepl_eq_self (l : List Char) (h : ∀ c ∈ l, isBannedFilenameChar c = false) :
    l.map (fun c => if isBannedFilenameChar c then '-' else c) = l := by
  induction l with
  | nil => rfl
  | cons a cs ih =>
    have ha := h a (List.mem_cons_self a cs)
    simp only [List.map_cons, if_neg (by simp [ha] : ¬isBannedFilenameChar a = true),
      ih (fun c hc => h c (List.mem_cons_of_mem a hc))]

/-- C9: `sanitizeFilename` is idempotent, and for every input its output
contains none of the characters `\ / : * ? " < > |`, contains no whitespace,
and has length at most 100. -/
theorem sanitizeFilename_idempotent_and_safe (s : String) :
    sanitizeFilename (sanitizeFilename s) = sanitizeFilename s ∧
    ((sanitizeFilename s).data.all fun c => !isBannedFilenameChar c && !isWsChar c) = true ∧
    (sanitizeFilename s).length ≤ 100 := by
  have hout : (sanitizeFilename s).data =
      (collapseWsAux false (s.data.map (fun c => if isBannedFilenameChar c then '-' else c))).take 100 := rfl
  have hmem : ∀ c ∈ (sanitizeFilename s).data,
      isBannedFilenameChar c = false ∧ isWsChar c = false := by
    intro c hc
    rw [hout] at hc
    have hc2 := List.take_subset _ _ hc
    rcases mem_collapseWsAux _ _ _ hc2 with h | ⟨h1, h2⟩
    · subst h; exact ⟨by decide, by decide⟩
    · exact ⟨mem_map_bannedRepl _ _ h1, h2⟩
  refine ⟨?_, ?_, ?_⟩
  · have h1 : (sanitizeFilename s).data.map (fun c => if isBannedFilenameChar c then '-' else c)
        = (sanitizeFilename s).data :=
      map_bannedRepl_eq_self _ (fun c hc => (hmem c hc).1)
    have h2 : collapseWsAux false (sanitizeFilename s).data = (sanitizeFilename s).data :=
      collapseWsAux_eq_self _ (fun c hc => (hmem c hc).2) false
    have h3 : (sanitizeFilename s).data.take 100 = (sanitizeFilename s).data := by
      rw [hout, List.take_take, min_self]
    show (⟨((collapseWsAux false ((sanitizeFilename s).data.map
      (fun c => if isBannedFilenameChar c then '-' else c))).take 100 : List Char)⟩ : String)
        = sanitizeFilename s
    rw [h1, h2, h3]
  · rw [List.all_eq_true]
    intro c hc
    have := hmem c hc
    simp [this.1, this.2]
  · show (sanitizeFilename s).data.length ≤ 100
    rw [hout]
    exact List.length_take_le 100 _

/-! ## Theorem about VaultService path resolution (claim C4) -/

/-- C4 is refuted by the code: `resolvePath` checks membership in the vault by
a raw string-prefix test, so the sibling directory `/vault-evil` of the root
`/vault` is accepted although it lies outside the root: the operation neither
rejects nor stays inside the vault. -/
theorem resolvePath_prefix_escape :
    vaultResolvePath "/vault" "../vault-evil" = Except.ok "/vault-evil" ∧
    insideRoot "/vault" "/vault-evil" = false := by
  constructor
  · rfl
  · rfl

/-! ## Theorems about the graph validator (claims C1 and C2) -/

theorem mapWithCounter_fst_length (f : Nat → α → β × Nat) :
    ∀ (l : List α) (n : Nat), ((mapWithCounter f n l).1).length = l.length := by
  intro l
  induction l with
  | nil => intro n; rfl
  | cons a as ih => intro n; simp [mapWithCounter, ih]

theorem mem_mapWithCounter (f : Nat → α → β × Nat) :
    ∀ (l : List α) (n : Nat) (b : β), b ∈ (mapWithCounter f n l).1 →
      ∃ a ∈ l, ∃ m, (f m a).1 = b := by
  intro l
  induction l with
  | nil => intro n b hb; simp [mapWithCounter] at hb
  | cons a as ih =>
    intro n b hb
    rw [mapWithCounter] at hb
    rcases List.mem_cons.mp hb with h | h
    · exact ⟨a, List.mem_cons_self a as, n, h.symm⟩
    · rcases ih _ b h with ⟨a', ha', m, hm⟩
      exact ⟨a', List.mem_cons_of_mem a ha', m, hm⟩

/-- C1: for every raw graph, every edge of the validator output resolves (both
endpoints name an id of the output node set), the node count is exactly the
input node count (edge dropping never adds or removes nodes), the output has
exactly one edge per input edge passing the reference check, and every input
edge failing the check is absent from the output. -/
theorem validator_referential_integrity (g : IdGen) (data : RawCanvasData) :
    (∀ e ∈ (validateAndFixCanvasData g data).edges,
        e.fromNode ∈ (validateAndFixCanvasData g data).nodes.map (fun n => n.id) ∧
        e.toNode ∈ (validateAndFixCanvasData g data).nodes.map (fun n => n.id)) ∧
    (validateAndFixCanvasData g data).nodes.length = data.nodes.length ∧
    (validateAndFixCanvasData g data).edges.length =
      (data.edges.filter (edgeRefsOk ((validateAndFixCanvasData g data).nodes.map (fun n => n.id)))).length ∧
    (∀ e ∈ data.edges,
        edgeRefsOk ((validateAndFixCanvasData g data).nodes.map (fun n => n.id)) e = false →
        ∀ e2 ∈ (validateAndFixCanvasData g data).edges,
          ¬(e.fromNode = some e2.fromNode ∧ e.toNode = some e2.toNode)) := by
  have hnodes : (validateAndFixCanvasData g data).nodes = validatedNodes g data := rfl
  have hedges : (validateAndFixCanvasData g data).edges =
      (mapWithCounter (normalizeEdge g) (mapWithCounter (normalizeNode g) 0 data.nodes).2
        (data.edges.filter (edgeRefsOk ((validatedNodes g data).map (fun n => n.id))))).1 := rfl
  have hok : ∀ e2 ∈ (validateAndFixCanvasData g data).edges,
      ∃ raw ∈ data.edges, edgeRefsOk ((validatedNodes g data).map (fun n => n.id)) raw = true ∧
        raw.fromNode = some e2.fromNode ∧ raw.toNode = some e2.toNode := by
    intro e2 he2
    rw [hedges] at he2
    rcases mem_mapWithCounter _ _ _ _ he2 with ⟨raw, hraw, m, hm⟩
    rcases List.mem_filter.mp hraw with ⟨hraw_mem, hraw_ok⟩
    refine ⟨raw, hraw_mem, hraw_ok, ?_, ?_⟩
    · rcases hfrom : raw.fromNode with _ | s
      · rw [edgeRefsOk, hfrom] at hraw_ok; simp at hraw_ok
      · rw [← hm]
        have hval : (normalizeEdge g m raw).1.fromNode = raw.fromNode.getD "" := rfl
        rw [hval, hfrom]
        rfl
    · rcases hto : raw.toNode with _ | s
      · rw [edgeRefsOk, hto] at hraw_ok
        simp at hraw_ok
      · rw [← hm]
        have hval : (normalizeEdge g m raw).1.toNode = raw.toNode.getD "" := rfl
        rw [hval, hto]
        rfl
  refine ⟨?_, ?_, ?_, ?_⟩
  · intro e he
    rcases hok e he with ⟨raw, _, hraw_ok, hfrom, hto⟩
    rw [hnodes]
    constructor
    · rcases hfn : raw.fromNode with _ | s
      · rw [hfn] at hfrom; cases hfrom
      · rw [edgeRefsOk, hfn] at hraw_ok
        have := (Bool.and_eq_true _ _).mp hraw_ok
        have hs : s ∈ (validatedNodes g data).map (fun n => n.id) := of_decide_eq_true this.1
        rw [hfn] at hfrom
        cases hfrom
        exact hs
    · rcases htn : raw.toNode with _ | s
      · rw [htn] at hto; cases hto
      · rw [edgeRefsOk, htn] at hraw_ok
        have := (Bool.and_eq_true _ _).mp hraw_ok
        have hs : s ∈ (validatedNodes g data).map (fun n => n.id) := of_decide_eq_true this.2
        rw [htn] at hto
        cases hto
        exact hs
  · rw [hnodes, validatedNodes, mapWithCounter_fst_length]
  · rw [hedges, mapWithCounter_fst_length, hnodes]
  · intro e _ hbad e2 he2 ⟨hf, ht⟩
    rcases hok e2 he2 with ⟨raw, _, hraw_ok, hfrom, hto⟩
    have : edgeRefsOk ((validateAndFixCanvasData g data).nodes.map (fun n => n.id)) e = true := by
      rw [hnodes]
      rw [edgeRefsOk, hf, ht]
      rw [edgeRefsOk, hfrom, hto] at hraw_ok
      exact hraw_ok
    rw [this] at hbad
    cases hbad

/-- Concrete witness for C1: the resolving edge of `rawC1` is kept (with a
generated id) and its source resolves in the output node set. -/
theorem validator_referential_integrity_witness :
    (⟨"gen", "a", "b", none, none, none, none⟩ : CanvasEdge) ∈ (validateAndFixCanvasData gZ rawC1).edges ∧
    "a" ∈ (validateAndFixCanvasData gZ rawC1).nodes.map (fun n => n.id) :=
  ⟨by decide, ((validator_referential_integrity gZ rawC1).1
      (⟨"gen", "a", "b", none, none, none, none⟩ : CanvasEdge) (by decide)).1⟩

/-- C2 counterexample: the validator keeps caller-supplied ids untouched, so a
raw graph whose nodes repeat an id yields an output graph in which two nodes
share an id. -/
theorem validator_duplicate_ids_cex :
    ¬ (((validateAndFixCanvasData gInj dupIdRaw).nodes.map (fun n => n.id)).Nodup) := by
  decide

/-! ## Scenario theorems (claims C6, C7, C8)

The rational arithmetic of the coordinate computations is evaluated inside
proofs, so the arithmetic of `Rat` is made unfoldable in this section. -/

section RatReducible

set_option allowUnsafeReducibility true
attribute [local semireducible] Rat.mul Rat.add Rat.sub Rat.inv Rat.div Rat.neg Rat.blt

/-- C7: the taskboard scenario.  The input
`"- Fix login bug (high)\n- Write docs\n- done: deploy to prod"` yields exactly
4 column groups plus 3 task text nodes; "Fix login bug" lands in column 0
(x = 20) with color "1", "Write docs" stays in column 0 (sticky cursor, x = 20,
priority medium), and "deploy to prod" lands in column 3 (x = 830) because
"done:" switches the cursor. -/
theorem taskboard_scenario (g : IdGen) :
    (((generateTaskboardFromDescription g tbScenarioInput).nodes.map stripId).filter
        (fun n => n.type == NodeType.group)).length = 4 ∧
    (((generateTaskboardFromDescription g tbScenarioInput).nodes.map stripId).filter
        (fun n => n.type == NodeType.text)).length = 3 ∧
    (generateTaskboardFromDescription g tbScenarioInput).nodes.map stripId =
      [⟨NodeType.group, 0, 0, 250, 600, none, none, some "To Do", some "2"⟩,
       ⟨NodeType.group, 270, 0, 250, 600, none, none, some "In Progress", some "3"⟩,
       ⟨NodeType.group, 540, 0, 250, 600, none, none, some "Review", some "5"⟩,
       ⟨NodeType.group, 810, 0, 250, 600, none, none, some "Done", some "4"⟩,
       ⟨NodeType.text, 20, 60, 210, 80, some "**Fix login bug (high)**\n\nPriority: high", none, none, some "1"⟩,
       ⟨NodeType.text, 20, 150, 210, 80, some "**Write docs**\n\nPriority: medium", none, none, none⟩,
       ⟨NodeType.text, 830, 60, 210, 80, some "**done: deploy to prod**\n\nPriority: medium", none, none, none⟩] := by
  refine ⟨?_, ?_, ?_⟩ <;> rfl

/-- C6 counterexample: on the risk-matrix scenario input the generator emits
4 text nodes (the two fixed axis labels plus the two risk nodes), not the 2
text nodes the claim asserts the graph consists of. -/
theorem riskmatrix_axis_labels_cex :
    ((generateRiskMatrixFromDescription gZ rmScenarioInput).nodes.filter
        (fun n => n.type == NodeType.text)).length = 4 ∧
    ¬ ((generateRiskMatrixFromDescription gZ rmScenarioInput).nodes.filter
        (fun n => n.type == NodeType.text)).length = 2 := by
  exact ⟨by rfl, by decide⟩

/-- C6 (amended): the risk-matrix scenario yields 9 group cells and 4 text
nodes (2 axis labels + the 2 risks); "Server outage" sits in the
impact=high / likelihood=high cell (cell at (540,0), risk node at (560,20))
with color "1" (score 9), and "Minor UI glitch" sits in the
impact=low / likelihood=medium cell (cell at (270,440), risk node at
(290,460)) with color "4" (score 2). -/
theorem riskmatrix_scenario (g : IdGen) :
    (((generateRiskMatrixFromDescription g rmScenarioInput).nodes.map stripId).filter
        (fun n => n.type == NodeType.group)).length = 9 ∧
    (((generateRiskMatrixFromDescription g rmScenarioInput).nodes.map stripId).filter
        (fun n => n.type == NodeType.text)).length = 4 ∧
    (⟨NodeType.text, 560, 20, 100, 40, some "Server outage - high impact, likely", none, none, some "1"⟩ : NodeGeom)
      ∈ (generateRiskMatrixFromDescription g rmScenarioInput).nodes.map stripId ∧
    (⟨NodeType.group, 540, 0, 250, 200, none, none, some "HI / HL", some "1"⟩ : NodeGeom)
      ∈ (generateRiskMatrixFromDescription g rmScenarioInput).nodes.map stripId ∧
    (⟨NodeType.text, 290, 460, 100, 40, some "Minor UI glitch - low impact", none, none, some "4"⟩ : NodeGeom)
      ∈ (generateRiskMatrixFromDescription g rmScenarioInput).nodes.map stripId ∧
    (⟨NodeType.group, 270, 440, 250, 200, none, none, some "LI / ML", some "4"⟩ : NodeGeom)
      ∈ (generateRiskMatrixFromDescription g rmScenarioInput).nodes.map stripId := by
  have h : (generateRiskMatrixFromDescription g rmScenarioInput).nodes.map stripId =
      [⟨NodeType.text, -100, 220, 80, 40, some "**Impact**", none, none, none⟩,
       ⟨NodeType.text, 270, 680, 100, 40, some "**Likelihood**", none, none, none⟩,
       ⟨NodeType.group, 0, 440, 250, 200, none, none, some "LI / LL", some "4"⟩,
       ⟨NodeType.group, 270, 440, 250, 200, none, none, some "LI / ML", some "4"⟩,
       ⟨NodeType.group, 540, 440, 250, 200, none, none, some "LI / HL", some "2"⟩,
       ⟨NodeType.group, 0, 220, 250, 200, none, none, some "MI / LL", some "4"⟩,
       ⟨NodeType.group, 270, 220, 250, 200, none, none, some "MI / ML", some "2"⟩,
       ⟨NodeType.group, 540, 220, 250, 200, none, none, some "MI / HL", some "1"⟩,
       ⟨NodeType.group, 0, 0, 250, 200, none, none, some "HI / LL", some "2"⟩,
       ⟨NodeType.group, 270, 0, 250, 200, none, none, some "HI / ML", some "1"⟩,
       ⟨NodeType.group, 540, 0, 250, 200, none, none, some "HI / HL", some "1"⟩,
       ⟨NodeType.text, 560, 20, 100, 40, some "Server outage - high impact, likely", none, none, some "1"⟩,
       ⟨NodeType.text, 290, 460, 100, 40, some "Minor UI glitch - low impact", none, none, some "4"⟩] := by
    rfl
  refine ⟨?_, ?_, ?_, ?_, ?_, ?_⟩ <;> rw [h] <;> decide

theorem serverTaskboardLoop_nil (g : IdGen) :
    ∀ (lines : List (List Char)), (∀ l ∈ lines, (trimL (stripBulletL l)).length < 3) →
      ∀ (ctr cc : Nat) (counts : List Nat), serverTaskboardLoop g ctr cc counts lines = [] := by
  intro lines
  induction lines with
  | nil => intro _ ctr cc counts; rfl
  | cons l rest ih =>
    intro h ctr cc counts
    have hl : (trimL (stripBulletL l)).length < 3 := h l (List.mem_cons_self l rest)
    simp only [serverTaskboardLoop]
    rw [if_pos hl]
    exact ih (fun x hx => h x (List.mem_cons_of_mem l hx)) ctr _ counts

/-- C8: when every line of the description dies in extraction (blank, or
shorter than 3 characters after bullet stripping), the taskboard generator
still emits 5 nodes: the 4 column groups and exactly one placeholder text node
carrying a 100-character-truncated excerpt of the description. -/
theorem taskboard_placeholder (g : IdGen) (d : String)
    (h : ∀ l ∈ nonBlankLines d, (trimL (stripBulletL l)).length < 3) :
    (generateTaskboardFromDescription g d).nodes.length = 5 ∧
    ((generateTaskboardFromDescription g d).nodes.filter
        (fun n => n.type == NodeType.group)).length = 4 ∧
    ((generateTaskboardFromDescription g d).nodes.filter
        (fun n => n.type == NodeType.text)).map stripId =
      [⟨NodeType.text, 20, 60, 210, 80,
        some ("Add tasks from:\n\n" ++ (⟨d.data.take 100⟩ : String) ++ "..."), none, none, none⟩] := by
  have hloop := serverTaskboardLoop_nil g (nonBlankLines d) h 4 0 [0, 0, 0, 0]
  have hgen : generateTaskboardFromDescription g d =
      ⟨serverTaskboardHeaders g ++
        [{ id := g 4
           type := NodeType.text
           x := 20
           y := 60
           width := 250 - 2 * 20
           height := 80
           text := some ("Add tasks from:\n\n" ++ (⟨d.data.take 100⟩ : String) ++ "...") }],
       []⟩ := by
    simp only [generateTaskboardFromDescription, hloop, List.append_nil]
    have hlen : (serverTaskboardHeaders g).length = 4 := by rfl
    rw [if_pos hlen]
  rw [hgen]
  refine ⟨?_, ?_, ?_⟩ <;> rfl

/-- Witness for C8 at the concrete input `"ab\n- x"` (both lines die: "ab" is
under 3 characters and "- x" strips to "x"). -/
theorem taskboard_placeholder_witness :
    (∀ l ∈ nonBlankLines "ab\n- x", (trimL (stripBulletL l)).length < 3) ∧
    (generateTaskboardFromDescription gZ "ab\n- x").nodes.length = 5 :=
  ⟨by decide, (taskboard_placeholder gZ "ab\n- x" (by decide)).1⟩

/-- C5 counterexample: the plugin-side mind-map generator does NOT truncate
subtopics: a single branch carrying 6 parsed subtopics yields 6 rendered
subtopic nodes (the 100×40 text nodes), one more than the claimed bound of 5. -/
theorem plugin_mindmap_renders_all_subtopics_cex :
    ((createMindMapCanvas TZ gZ "c" [⟨"b", ["s1", "s2", "s3", "s4", "s5", "s6"]⟩]).nodes.filter
        (fun n => n.width == 100 && n.height == 40)).length = 6 ∧
    (createMindMapCanvas TZ gZ "c" [⟨"b", ["s1", "s2", "s3", "s4", "s5", "s6"]⟩]).nodes.length = 8 := by
  exact ⟨by rfl, by rfl⟩

end RatReducible

/-! ## Skeleton instantiation of the mind-map loops (used by C2, C3, C10) -/

theorem stripId_instNode (g : IdGen) (s : NodeSkel) : stripId (instNode g s) = s.geom := rfl

theorem map_stripId_instNode (g : IdGen) (L : List NodeSkel) :
    (L.map (instNode g)).map stripId = L.map NodeSkel.geom := by
  rw [List.map_map]; rfl

theorem mindMapSubsLoop_eq_skel (T : TrigModel) (g : IdGen) (txtF : String → String)
    (bIdx : Nat) (brX brY sA sS : ℚ) :
    ∀ (subs : List String) (ctr j : Nat),
      mindMapSubsLoop T g txtF (g bIdx) brX brY sA sS ctr j subs =
        ((mindMapSubsSkel T txtF bIdx brX brY sA sS ctr j subs).1.map (instNode g),
         (mindMapSubsSkel T txtF bIdx brX brY sA sS ctr j subs).2.1.map (instEdge g),
         (mindMapSubsSkel T txtF bIdx brX brY sA sS ctr j subs).2.2) := by
  intro subs
  induction subs with
  | nil => intro ctr j; rfl
  | cons sub rest ih =>
    intro ctr j
    simp only [mindMapSubsLoop, mindMapSubsSkel, ih (ctr + 2) (j + 1), List.map_cons]
    rfl

theorem mindMapBranchLoop_eq_skel (T : TrigModel) (g : IdGen) (txtF : String → String)
    (subsSel : List String → List String) (cIdx : Nat) (aStep : ℚ) :
    ∀ (bs : List Branch) (ctr i : Nat),
      mindMapBranchLoop T g txtF subsSel (g cIdx) aStep ctr i bs =
        ((mindMapBranchSkel T txtF subsSel cIdx aStep ctr i bs).1.map (instNode g),
         (mindMapBranchSkel T txtF subsSel cIdx aStep ctr i bs).2.1.map (instEdge g),
         (mindMapBranchSkel T txtF subsSel cIdx aStep ctr i bs).2.2) := by
  intro bs
  induction bs with
  | nil => intro ctr i; rfl
  | cons b rest ih =>
    intro ctr i
    simp only [mindMapBranchLoop, mindMapBranchSkel, mindMapSubsLoop_eq_skel, ih,
      List.map_cons, List.map_append]
    rfl

theorem createMindMapCanvas_skel (T : TrigModel) (g : IdGen) (central : String)
    (bs : List Branch) :
    createMindMapCanvas T g central bs =
      ⟨instNode g (centralSkel central) :: (pluginMindSkel T bs).1.map (instNode g),
       (pluginMindSkel T bs).2.1.map (instEdge g)⟩ := by
  simp only [createMindMapCanvas, mindMapBranchLoop_eq_skel, pluginMindSkel]
  rfl

theorem generateMindMapFromDescription_skel (T : TrigModel) (g : IdGen) (d : String) :
    generateMindMapFromDescription T g d =
      ⟨instNode g (centralSkel (parseMindMapDescription d).1) ::
        (serverMindSkel T d).1.map (instNode g),
       (serverMindSkel T d).2.1.map (instEdge g)⟩ := by
  simp only [generateMindMapFromDescription, mindMapBranchLoop_eq_skel, serverMindSkel]
  rfl

/-! ## Determinism of the layout generators up to ids (claim C3) -/

theorem taskboardHeaderNodes_strip (g h : IdGen) (tasks : List TaskInput) :
    (taskboardHeaderNodes g tasks).map stripId = (taskboardHeaderNodes h tasks).map stripId := by
  rfl

theorem taskboardTasksLoop_strip (g h : IdGen) :
    ∀ (tasks : List TaskInput) (ctr ctr2 : Nat) (counts : String → Nat),
      (taskboardTasksLoop g ctr counts tasks).map stripId =
        (taskboardTasksLoop h ctr2 counts tasks).map stripId := by
  intro tasks
  induction tasks with
  | nil => intro _ _ _; rfl
  | cons t rest ih =>
    intro ctr ctr2 counts
    simp only [taskboardTasksLoop, List.map_cons]
    rw [ih (ctr + 1) (ctr2 + 1)]
    rfl

theorem riskMatrixCellNodes_strip (g h : IdGen) :
    (riskMatrixCellNodes g).map stripId = (riskMatrixCellNodes h).map stripId := by
  rfl

theorem riskMatrixRiskLoop_strip (g h : IdGen) :
    ∀ (risks : List RiskInput) (ctr ctr2 : Nat) (counts : String → Nat),
      (riskMatrixRiskLoop g ctr counts risks).map stripId =
        (riskMatrixRiskLoop h ctr2 counts risks).map stripId := by
  intro risks
  induction risks with
  | nil => intro _ _ _; rfl
  | cons r rest ih =>
    intro ctr ctr2 counts
    simp only [riskMatrixRiskLoop, List.map_cons]
    rw [ih (ctr + 1) (ctr2 + 1)]
    rfl

/-- C3: the layout generators are deterministic in everything but the ids.
Two invocations with arbitrary id supplies yield the same id-free node lists
(same geometry, text, labels and colors, in the same order), and — for the
mind map, the only generator emitting edges — edge lists that are positional
instantiations of one common skeleton (same endpoints by generation position,
same attachment sides), i.e. identical up to renaming of the generated ids. -/
theorem layout_deterministic_up_to_ids (T : TrigModel) (g g2 : IdGen)
    (tasks : List TaskInput) (risks : List RiskInput) (central : String)
    (branches : List Branch) :
    ((createTaskboardCanvas g tasks).nodes.map stripId =
        (createTaskboardCanvas g2 tasks).nodes.map stripId ∧
      (createTaskboardCanvas g tasks).edges = (createTaskboardCanvas g2 tasks).edges) ∧
    ((createRiskMatrixCanvas g risks).nodes.map stripId =
        (createRiskMatrixCanvas g2 risks).nodes.map stripId ∧
      (createRiskMatrixCanvas g risks).edges = (createRiskMatrixCanvas g2 risks).edges) ∧
    ((createMindMapCanvas T g central branches).nodes.map stripId =
        (createMindMapCanvas T g2 central branches).nodes.map stripId ∧
      ∃ es : List EdgeSkel,
        (createMindMapCanvas T g central branches).edges = es.map (instEdge g) ∧
        (createMindMapCanvas T g2 central branches).edges = es.map (instEdge g2)) := by
  refine ⟨⟨?_, rfl⟩, ⟨?_, rfl⟩, ?_, ?_⟩
  · show ((taskboardHeaderNodes g tasks ++ taskboardTasksLoop g 4 (fun _ => 0) tasks).map stripId) =
      ((taskboardHeaderNodes g2 tasks ++ taskboardTasksLoop g2 4 (fun _ => 0) tasks).map stripId)
    rw [List.map_append, List.map_append, taskboardHeaderNodes_strip g g2,
      taskboardTasksLoop_strip g g2 tasks 4 4]
  · show ((riskMatrixCellNodes g ++ riskMatrixRiskLoop g 9 (fun _ => 0) risks).map stripId) =
      ((riskMatrixCellNodes g2 ++ riskMatrixRiskLoop g2 9 (fun _ => 0) risks).map stripId)
    rw [List.map_append, List.map_append, riskMatrixCellNodes_strip g g2,
      riskMatrixRiskLoop_strip g g2 risks 9 9]
  · rw [createMindMapCanvas_skel T g, createMindMapCanvas_skel T g2]
    simp only [List.map_cons, stripId_instNode, map_stripId_instNode]
  · refine ⟨(pluginMindSkel T branches).2.1, ?_, ?_⟩
    · rw [createMindMapCanvas_skel T g]
    · rw [createMindMapCanvas_skel T g2]


/-! ## The closest-side heuristic (claim C10) -/

theorem getClosestSide_antisym (fx fy tx ty : ℚ) (h : ¬(fx = tx ∧ fy = ty)) :
    getClosestSide tx ty fx fy = oppositeSide (getClosestSide fx fy tx ty) := by
  simp only [getClosestSide]
  by_cases h1 : |tx - fx| > |ty - fy|
  · have h1a : |fx - tx| > |fy - ty| := by
      rwa [abs_sub_comm fx tx, abs_sub_comm fy ty]
    rw [if_pos h1, if_pos h1a]
    by_cases h2 : tx - fx > 0
    · have h2a : ¬(fx - tx > 0) := by linarith
      rw [if_pos h2, if_neg h2a]
      rfl
    · have hlt : tx - fx < 0 := by
        rcases lt_trichotomy (tx - fx) 0 with h3 | h3 | h3
        · exact h3
        · exfalso
          rw [h3, abs_zero] at h1
          have := abs_nonneg (ty - fy)
          linarith
        · exact absurd h3 h2
      have h2a : fx - tx > 0 := by linarith
      rw [if_neg h2, if_pos h2a]
      rfl
  · have h1a : ¬(|fx - tx| > |fy - ty|) := by
      rwa [abs_sub_comm fx tx, abs_sub_comm fy ty]
    rw [if_neg h1, if_neg h1a]
    by_cases h2 : ty - fy > 0
    · have h2a : ¬(fy - ty > 0) := by linarith
      rw [if_pos h2, if_neg h2a]
      rfl
    · rcases lt_trichotomy (ty - fy) 0 with h3 | h3 | h3
      · have h2a : fy - ty > 0 := by linarith
        rw [if_neg h2, if_pos h2a]
        rfl
      · exfalso
        push_neg at h1
        rw [h3, abs_zero] at h1
        have hx : tx - fx = 0 := abs_eq_zero.mp (le_antisymm h1 (abs_nonneg _))
        exact h ⟨by linarith, by linarith⟩
      · exact absurd h3 h2

/-- C10: the closest-side heuristic is antisymmetric: for two distinct anchor
points the side chosen from the second towards the first is the opposite of
the side chosen from the first towards the second; and every mind-map edge has
its two sides computed as exactly such a pair of closest-side values of the
two anchor points of its endpoints. -/
theorem closest_side_opposition (p q : ℚ × ℚ) (hpq : p ≠ q) (T : TrigModel) (g : IdGen)
    (central : String) (branches : List Branch) (e : CanvasEdge)
    (he : e ∈ (createMindMapCanvas T g central branches).edges) :
    getClosestSide q.1 q.2 p.1 p.2 = oppositeSide (getClosestSide p.1 p.2 q.1 q.2) ∧
    ∃ a b : ℚ × ℚ, e.fromSide = some (getClosestSide a.1 a.2 b.1 b.2) ∧
      e.toSide = some (getClosestSide b.1 b.2 a.1 a.2) := by
  constructor
  · refine getClosestSide_antisym p.1 p.2 q.1 q.2 ?_
    rintro ⟨h1, h2⟩
    exact hpq (Prod.ext h1 h2)
  · have he2 : e ∈ (mindMapBranchSkel T (fun s => s) (fun l => l) 0
        (2 * T.pi / (branches.length : ℚ)) 1 0 branches).2.1.map (instEdge g) := by
      rw [createMindMapCanvas_skel] at he
      exact he
    rcases List.mem_map.mp he2 with ⟨sk, _, rfl⟩
    exact ⟨sk.p, sk.q, rfl, rfl⟩

section RatReducible2

set_option allowUnsafeReducibility true
attribute [local semireducible] Rat.mul Rat.add Rat.sub Rat.inv Rat.div Rat.neg Rat.blt

/-- Witness for C10: the pair (0,0), (5,1) (right pairs with left), and the
first edge of a concrete one-branch mind map. -/
theorem closest_side_opposition_witness :
    ((0 : ℚ), (0 : ℚ)) ≠ ((5 : ℚ), (1 : ℚ)) ∧
    (⟨"gen", "gen", "gen", some Side.right, some Side.left, none, none⟩ : CanvasEdge) ∈
      (createMindMapCanvas TZ gZ "c" [⟨"b", ["s"]⟩]).edges ∧
    (getClosestSide 5 1 0 0 = oppositeSide (getClosestSide 0 0 5 1) ∧
      ∃ a b : ℚ × ℚ,
        (⟨"gen", "gen", "gen", some Side.right, some Side.left, none, none⟩ : CanvasEdge).fromSide =
          some (getClosestSide a.1 a.2 b.1 b.2) ∧
        (⟨"gen", "gen", "gen", some Side.right, some Side.left, none, none⟩ : CanvasEdge).toSide =
          some (getClosestSide b.1 b.2 a.1 a.2)) :=
  ⟨by decide, by decide,
    closest_side_opposition ((0 : ℚ), (0 : ℚ)) ((5 : ℚ), (1 : ℚ)) (by decide) TZ gZ "c"
      [⟨"b", ["s"]⟩] (⟨"gen", "gen", "gen", some Side.right, some Side.left, none, none⟩ : CanvasEdge)
      (by decide)⟩

end RatReducible2


/-! ## The subtopic bound (claim C5) -/

theorem mindMapSubsLoop_length (T : TrigModel) (g : IdGen) (txtF : String → String)
    (bId : String) (brX brY sA sS : ℚ) :
    ∀ (subs : List String) (ctr j : Nat),
      (mindMapSubsLoop T g txtF bId brX brY sA sS ctr j subs).1.length = subs.length := by
  intro subs
  induction subs with
  | nil => intro _ _; rfl
  | cons s rest ih =>
    intro ctr j
    simp only [mindMapSubsLoop, List.length_cons, ih (ctr + 2) (j + 1)]

theorem mindMapBranchLoop_nodes_length (T : TrigModel) (g : IdGen) (txtF : String → String)
    (subsSel : List String → List String) (cId : String) (aStep : ℚ) :
    ∀ (bs : List Branch) (ctr i : Nat),
      (mindMapBranchLoop T g txtF subsSel cId aStep ctr i bs).1.length =
        (bs.map (fun b => 1 + (subsSel b.subtopics).length)).sum := by
  intro bs
  induction bs with
  | nil => intro _ _; rfl
  | cons b rest ih =>
    intro ctr i
    simp only [mindMapBranchLoop, List.length_cons, List.length_append, List.map_cons,
      List.sum_cons, mindMapSubsLoop_length, ih]
    omega

theorem sum_map_one_add {α : Type} (f : α → Nat) :
    ∀ (l : List α), (l.map (fun a => 1 + f a)).sum = l.length + (l.map f).sum := by
  intro l
  induction l with
  | nil => rfl
  | cons a rest ih =>
    simp only [List.map_cons, List.sum_cons, List.length_cons, ih]
    omega

theorem serverSubsSel_length (l : List String) :
    (if 0 < l.length then l.take 5 else []).length = min l.length 5 := by
  cases l with
  | nil => rfl
  | cons a rest =>
    simp only [List.length_cons, if_pos (Nat.succ_pos _), List.length_take]
    omega

/-- C5 (amended): the 5-subtopic-per-branch bound holds in the server-side
`generateMindMapFromDescription` — its node count is 1 (central) + one per
parsed branch + `min 5 |subtopics|` per branch — while the plugin-side
`createMindMapCanvas` renders every parsed subtopic (one node per subtopic,
with no truncation). -/
theorem mindmap_subtopic_truncation (T : TrigModel) (g : IdGen) (d : String)
    (central : String) (branches : List Branch) :
    (generateMindMapFromDescription T g d).nodes.length =
      1 + (parseMindMapDescription d).2.length +
        ((parseMindMapDescription d).2.map (fun b => min b.subtopics.length 5)).sum ∧
    (createMindMapCanvas T g central branches).nodes.length =
      1 + branches.length + (branches.map (fun b => b.subtopics.length)).sum := by
  constructor
  · have h : (generateMindMapFromDescription T g d).nodes.length =
        1 + (mindMapBranchLoop T g (fun s => (⟨s.data.take 30⟩ : String))
          (fun l => if 0 < l.length then l.take 5 else []) (g 0)
          (if 0 < (parseMindMapDescription d).2.length then
            2 * T.pi / ((parseMindMapDescription d).2.length : ℚ) else 0) 1 0
          (parseMindMapDescription d).2).1.length := by
      simp [generateMindMapFromDescription]
      omega
    rw [h, mindMapBranchLoop_nodes_length]
    simp only [serverSubsSel_length]
    rw [sum_map_one_add]
    omega
  · have h : (createMindMapCanvas T g central branches).nodes.length =
        1 + (mindMapBranchLoop T g (fun s => s) (fun l => l) (g 0)
          (2 * T.pi / (branches.length : ℚ)) 1 0 branches).1.length := by
      simp [createMindMapCanvas]
      omega
    rw [h, mindMapBranchLoop_nodes_length]
    rw [sum_map_one_add]
    omega


/-! ## Uniqueness of generated ids (claim C2) -/

theorem nodup_map_of_pairwise_lt (g : IdGen) (hg : Function.Injective g) :
    ∀ (l : List Nat), l.Pairwise (· < ·) → (l.map g).Nodup := by
  intro l h
  show (l.map g).Pairwise (· ≠ ·)
  rw [List.pairwise_map]
  exact h.imp (fun hlt heq => absurd (hg heq) (Nat.ne_of_lt hlt))

theorem map_id_instNode (g : IdGen) (L : List NodeSkel) :
    (L.map (instNode g)).map (fun n => n.id) = (L.map NodeSkel.idx).map g := by
  rw [List.map_map, List.map_map]; rfl

theorem map_id_instEdge (g : IdGen) (L : List EdgeSkel) :
    (L.map (instEdge g)).map (fun e => e.id) = (L.map EdgeSkel.idx).map g := by
  rw [List.map_map, List.map_map]; rfl

theorem skelIdxOk_cons (ctr : Nat) (n1 : NodeSkel) (e1 : EdgeSkel)
    (S : List NodeSkel × List EdgeSkel × Nat)
    (hn1 : n1.idx = ctr) (he1 : e1.idx = ctr + 1)
    (hS : SkelIdxOk (ctr + 2) S) :
    SkelIdxOk ctr (n1 :: S.1, e1 :: S.2.1, S.2.2) := by
  obtain ⟨hSle, hSn, hSe, hSpn, hSpe⟩ := hS
  dsimp only [SkelIdxOk]
  refine ⟨by omega, ?_, ?_, ?_, ?_⟩
  · intro k hk
    simp only [List.map_cons, List.mem_cons] at hk
    rcases hk with hk0 | hk
    · exact ⟨by omega, by omega⟩
    · have := hSn k hk
      exact ⟨by omega, by omega⟩
  · intro k hk
    simp only [List.map_cons, List.mem_cons] at hk
    rcases hk with hk0 | hk
    · exact ⟨by omega, by omega⟩
    · have := hSe k hk
      exact ⟨by omega, by omega⟩
  · simp only [List.map_cons]
    rw [List.pairwise_cons]
    exact ⟨fun k hk => by have := hSn k hk; omega, hSpn⟩
  · simp only [List.map_cons]
    rw [List.pairwise_cons]
    exact ⟨fun k hk => by have := hSe k hk; omega, hSpe⟩

theorem skelIdxOk_step (ctr : Nat) (n1 : NodeSkel) (e1 : EdgeSkel)
    (S R : List NodeSkel × List EdgeSkel × Nat)
    (hn1 : n1.idx = ctr) (he1 : e1.idx = ctr + 1)
    (hS : SkelIdxOk (ctr + 2) S) (hR : SkelIdxOk S.2.2 R) :
    SkelIdxOk ctr (n1 :: S.1 ++ R.1, e1 :: S.2.1 ++ R.2.1, R.2.2) := by
  obtain ⟨hSle, hSn, hSe, hSpn, hSpe⟩ := hS
  obtain ⟨hRle, hRn, hRe, hRpn, hRpe⟩ := hR
  dsimp only [SkelIdxOk]
  refine ⟨by omega, ?_, ?_, ?_, ?_⟩
  · intro k hk
    simp only [List.cons_append, List.map_cons, List.map_append, List.mem_cons,
      List.mem_append] at hk
    rcases hk with hk0 | hk | hk
    · exact ⟨by omega, by omega⟩
    · have := hSn k hk
      exact ⟨by omega, by omega⟩
    · have := hRn k hk
      exact ⟨by omega, by omega⟩
  · intro k hk
    simp only [List.cons_append, List.map_cons, List.map_append, List.mem_cons,
      List.mem_append] at hk
    rcases hk with hk0 | hk | hk
    · exact ⟨by omega, by omega⟩
    · have := hSe k hk
      exact ⟨by omega, by omega⟩
    · have := hRe k hk
      exact ⟨by omega, by omega⟩
  · simp only [List.cons_append, List.map_cons, List.map_append]
    rw [List.pairwise_cons]
    constructor
    · intro k hk
      rw [List.mem_append] at hk
      rcases hk with hk | hk
      · have := hSn k hk; omega
      · have := hRn k hk; omega
    · rw [List.pairwise_append]
      exact ⟨hSpn, hRpn, fun a ha b hb => by have := hSn a ha; have := hRn b hb; omega⟩
  · simp only [List.cons_append, List.map_cons, List.map_append]
    rw [List.pairwise_cons]
    constructor
    · intro k hk
      rw [List.mem_append] at hk
      rcases hk with hk | hk
      · have := hSe k hk; omega
      · have := hRe k hk; omega
    · rw [List.pairwise_append]
      exact ⟨hSpe, hRpe, fun a ha b hb => by have := hSe a ha; have := hRe b hb; omega⟩

theorem mindMapSubsSkel_idxOk (T : TrigModel) (txtF : String → String) (bIdx : Nat)
    (brX brY sA sS : ℚ) :
    ∀ (subs : List String) (ctr j : Nat),
      SkelIdxOk ctr (mindMapSubsSkel T txtF bIdx brX brY sA sS ctr j subs) := by
  intro subs
  induction subs with
  | nil =>
    intro ctr j
    refine ⟨Nat.le_refl _, ?_, ?_, ?_, ?_⟩ <;> simp [mindMapSubsSkel]
  | cons s rest ih =>
    intro ctr j
    simp only [mindMapSubsSkel]
    exact skelIdxOk_cons ctr _ _ _ rfl rfl (ih (ctr + 2) (j + 1))

theorem mindMapBranchSkel_idxOk (T : TrigModel) (txtF : String → String)
    (subsSel : List String → List String) (cIdx : Nat) (aStep : ℚ) :
    ∀ (bs : List Branch) (ctr i : Nat),
      SkelIdxOk ctr (mindMapBranchSkel T txtF subsSel cIdx aStep ctr i bs) := by
  intro bs
  induction bs with
  | nil =>
    intro ctr i
    refine ⟨Nat.le_refl _, ?_, ?_, ?_, ?_⟩ <;> simp [mindMapBranchSkel]
  | cons b rest ih =>
    intro ctr i
    simp only [mindMapBranchSkel]
    exact skelIdxOk_step ctr _ _ _ _ rfl rfl
      (mindMapSubsSkel_idxOk T txtF ctr _ _ _ _ (subsSel b.subtopics) (ctr + 2) 0)
      (ih _ (i + 1))


theorem range'_zero_append (m n : Nat) :
    List.range' 0 m ++ List.range' m n = List.range' 0 (n + m) := by
  have h := List.range'_append 0 m n 1
  simpa using h

theorem taskboardTasksLoop_ids (g : IdGen) :
    ∀ (tasks : List TaskInput) (ctr : Nat) (counts : String → Nat),
      (taskboardTasksLoop g ctr counts tasks).map (fun n => n.id) =
        (List.range' ctr tasks.length).map g := by
  intro tasks
  induction tasks with
  | nil => intro _ _; rfl
  | cons t rest ih =>
    intro ctr counts
    simp only [taskboardTasksLoop, List.map_cons, List.length_cons, List.range'_succ]
    rw [ih (ctr + 1)]

theorem createTaskboardCanvas_node_ids (g : IdGen) (tasks : List TaskInput) :
    (createTaskboardCanvas g tasks).nodes.map (fun n => n.id) =
      (List.range' 0 (tasks.length + 4)).map g := by
  show ((taskboardHeaderNodes g tasks ++ taskboardTasksLoop g 4 (fun _ => 0) tasks).map
    (fun n => n.id)) = (List.range' 0 (tasks.length + 4)).map g
  rw [List.map_append, taskboardTasksLoop_ids]
  have h4 : (taskboardHeaderNodes g tasks).map (fun n => n.id) = (List.range' 0 4).map g := rfl
  rw [h4, ← List.map_append, range'_zero_append]

theorem riskMatrixRiskLoop_ids (g : IdGen) :
    ∀ (risks : List RiskInput) (ctr : Nat) (counts : String → Nat),
      (riskMatrixRiskLoop g ctr counts risks).map (fun n => n.id) =
        (List.range' ctr risks.length).map g := by
  intro risks
  induction risks with
  | nil => intro _ _; rfl
  | cons r rest ih =>
    intro ctr counts
    simp only [riskMatrixRiskLoop, List.map_cons, List.length_cons, List.range'_succ]
    rw [ih (ctr + 1)]

theorem createRiskMatrixCanvas_node_ids (g : IdGen) (risks : List RiskInput) :
    (createRiskMatrixCanvas g risks).nodes.map (fun n => n.id) =
      (List.range' 0 (risks.length + 9)).map g := by
  show ((riskMatrixCellNodes g ++ riskMatrixRiskLoop g 9 (fun _ => 0) risks).map
    (fun n => n.id)) = (List.range' 0 (risks.length + 9)).map g
  rw [List.map_append, riskMatrixRiskLoop_ids]
  have h9 : (riskMatrixCellNodes g).map (fun n => n.id) = (List.range' 0 9).map g := rfl
  rw [h9, ← List.map_append, range'_zero_append]

theorem serverTaskboardLoop_ids (g : IdGen) :
    ∀ (lines : List (List Char)) (ctr cc : Nat) (counts : List Nat),
      (serverTaskboardLoop g ctr cc counts lines).map (fun n => n.id) =
        (List.range' ctr
          (lines.countP (fun l => decide (¬(trimL (stripBulletL l)).length < 3)))).map g := by
  intro lines
  induction lines with
  | nil => intro _ _ _; rfl
  | cons l rest ih =>
    intro ctr cc counts
    by_cases hl : (trimL (stripBulletL l)).length < 3
    · simp only [serverTaskboardLoop]
      rw [if_pos hl, ih]
      simp [List.countP_cons, hl]
    · simp only [serverTaskboardLoop]
      rw [if_neg hl]
      simp only [List.map_cons]
      rw [ih (ctr + 1)]
      have h3 : 3 ≤ (trimL (stripBulletL l)).length := Nat.not_lt.mp hl
      simp [List.countP_cons, h3, List.range'_succ]

theorem serverRiskLoop_ids (g : IdGen) :
    ∀ (lines : List (List Char)) (ctr : Nat) (counts : String → Nat),
      (serverRiskLoop g ctr counts lines).map (fun n => n.id) =
        (List.range' ctr
          (lines.countP (fun l => decide (¬(trimL (stripBulletL l)).length < 3)))).map g := by
  intro lines
  induction lines with
  | nil => intro _ _; rfl
  | cons l rest ih =>
    intro ctr counts
    by_cases hl : (trimL (stripBulletL l)).length < 3
    · simp only [serverRiskLoop]
      rw [if_pos hl, ih]
      simp [List.countP_cons, hl]
    · simp only [serverRiskLoop]
      rw [if_neg hl]
      simp only [List.map_cons]
      rw [ih (ctr + 1)]
      have h3 : 3 ≤ (trimL (stripBulletL l)).length := Nat.not_lt.mp hl
      simp [List.countP_cons, h3, List.range'_succ]

theorem generateTaskboardFromDescription_ids_nodup (g : IdGen) (hg : Function.Injective g)
    (d : String) :
    ((generateTaskboardFromDescription g d).nodes.map (fun n => n.id)).Nodup := by
  by_cases h : (serverTaskboardHeaders g ++
      serverTaskboardLoop g 4 0 [0, 0, 0, 0] (nonBlankLines d)).length = 4
  · have hlen : (serverTaskboardLoop g 4 0 [0, 0, 0, 0] (nonBlankLines d)).length = 0 := by
      rw [List.length_append] at h
      have h4 : (serverTaskboardHeaders g).length = 4 := by rfl
      omega
    have hnil : serverTaskboardLoop g 4 0 [0, 0, 0, 0] (nonBlankLines d) = [] :=
      List.eq_nil_of_length_eq_zero hlen
    simp only [generateTaskboardFromDescription]
    rw [if_pos h, hnil, List.append_nil]
    have heq : ((serverTaskboardHeaders g ++
        [{ id := g 4
           type := NodeType.text
           x := 20
           y := 60
           width := 250 - 2 * 20
           height := 80
           text := some ("Add tasks from:\n\n" ++ (⟨d.data.take 100⟩ : String) ++ "...") }] :
        List CanvasNode).map (fun n => n.id)) = [0, 1, 2, 3, 4].map g := rfl
    rw [heq]
    exact nodup_map_of_pairwise_lt g hg _ (by decide)
  · simp only [generateTaskboardFromDescription]
    rw [if_neg h]
    show ((serverTaskboardHeaders g ++
      serverTaskboardLoop g 4 0 [0, 0, 0, 0] (nonBlankLines d)).map (fun n => n.id)).Nodup
    rw [List.map_append, serverTaskboardLoop_ids]
    have h4 : (serverTaskboardHeaders g).map (fun n => n.id) = (List.range' 0 4).map g := rfl
    rw [h4, ← List.map_append, range'_zero_append]
    exact nodup_map_of_pairwise_lt g hg _ (List.pairwise_lt_range' _ _)

theorem generateRiskMatrixFromDescription_ids_nodup (g : IdGen) (hg : Function.Injective g)
    (d : String) :
    ((generateRiskMatrixFromDescription g d).nodes.map (fun n => n.id)).Nodup := by
  show ((serverRiskMatrixStatic g ++
    serverRiskLoop g 11 (fun _ => 0) (nonBlankLines d)).map (fun n => n.id)).Nodup
  rw [List.map_append, serverRiskLoop_ids]
  have h11 : (serverRiskMatrixStatic g).map (fun n => n.id) = (List.range' 0 11).map g := rfl
  rw [h11, ← List.map_append, range'_zero_append]
  exact nodup_map_of_pairwise_lt g hg _ (List.pairwise_lt_range' _ _)

theorem createMindMapCanvas_ids_nodup (g : IdGen) (hg : Function.Injective g) (T : TrigModel)
    (central : String) (bs : List Branch) :
    ((createMindMapCanvas T g central bs).nodes.map (fun n => n.id)).Nodup ∧
    ((createMindMapCanvas T g central bs).edges.map (fun e => e.id)).Nodup := by
  obtain ⟨hle, hn, he, hpn, hpe⟩ := mindMapBranchSkel_idxOk T (fun s => s) (fun l => l) 0
    (2 * T.pi / (bs.length : ℚ)) bs 1 0
  rw [createMindMapCanvas_skel]
  constructor
  · show ((instNode g (centralSkel central) ::
      (pluginMindSkel T bs).1.map (instNode g)).map (fun n => n.id)).Nodup
    rw [List.map_cons, map_id_instNode]
    show ((0 :: (pluginMindSkel T bs).1.map NodeSkel.idx).map g).Nodup
    apply nodup_map_of_pairwise_lt g hg
    rw [List.pairwise_cons]
    exact ⟨fun k hk => by have := hn k hk; omega, hpn⟩
  · show (((pluginMindSkel T bs).2.1.map (instEdge g)).map (fun e => e.id)).Nodup
    rw [map_id_instEdge]
    exact nodup_map_of_pairwise_lt g hg _ hpe

theorem generateMindMapFromDescription_ids_nodup (g : IdGen) (hg : Function.Injective g)
    (T : TrigModel) (d : String) :
    ((generateMindMapFromDescription T g d).nodes.map (fun n => n.id)).Nodup ∧
    ((generateMindMapFromDescription T g d).edges.map (fun e => e.id)).Nodup := by
  obtain ⟨hle, hn, he, hpn, hpe⟩ := mindMapBranchSkel_idxOk T
    (fun s => (⟨s.data.take 30⟩ : String)) (fun l => if 0 < l.length then l.take 5 else []) 0
    (if 0 < (parseMindMapDescription d).2.length then
      2 * T.pi / ((parseMindMapDescription d).2.length : ℚ) else 0)
    (parseMindMapDescription d).2 1 0
  rw [generateMindMapFromDescription_skel]
  constructor
  · show ((instNode g (centralSkel (parseMindMapDescription d).1) ::
      (serverMindSkel T d).1.map (instNode g)).map (fun n => n.id)).Nodup
    rw [List.map_cons, map_id_instNode]
    show ((0 :: (serverMindSkel T d).1.map NodeSkel.idx).map g).Nodup
    apply nodup_map_of_pairwise_lt g hg
    rw [List.pairwise_cons]
    exact ⟨fun k hk => by have := hn k hk; omega, hpn⟩
  · show (((serverMindSkel T d).2.1.map (instEdge g)).map (fun e => e.id)).Nodup
    rw [map_id_instEdge]
    exact nodup_map_of_pairwise_lt g hg _ hpe

/-- C2 (amended): with an injective id supply, every layout generator (plugin
taskboard, risk matrix and mind map; server taskboard, risk matrix and mind
map) emits pairwise-distinct node ids and pairwise-distinct edge ids.  The
validator, by contrast, copies caller-supplied ids verbatim, so its output can
repeat ids (see the counterexample). -/
theorem generated_ids_unique (g : IdGen) (hg : Function.Injective g) (T : TrigModel)
    (tasks : List TaskInput) (risks : List RiskInput) (central : String)
    (branches : List Branch) (d1 d2 d3 : String) :
    (((createTaskboardCanvas g tasks).nodes.map (fun n => n.id)).Nodup ∧
      ((createTaskboardCanvas g tasks).edges.map (fun e => e.id)).Nodup) ∧
    (((createRiskMatrixCanvas g risks).nodes.map (fun n => n.id)).Nodup ∧
      ((createRiskMatrixCanvas g risks).edges.map (fun e => e.id)).Nodup) ∧
    (((createMindMapCanvas T g central branches).nodes.map (fun n => n.id)).Nodup ∧
      ((createMindMapCanvas T g central branches).edges.map (fun e => e.id)).Nodup) ∧
    (((generateTaskboardFromDescription g d1).nodes.map (fun n => n.id)).Nodup ∧
      ((generateTaskboardFromDescription g d1).edges.map (fun e => e.id)).Nodup) ∧
    (((generateRiskMatrixFromDescription g d2).nodes.map (fun n => n.id)).Nodup ∧
      ((generateRiskMatrixFromDescription g d2).edges.map (fun e => e.id)).Nodup) ∧
    (((generateMindMapFromDescription T g d3).nodes.map (fun n => n.id)).Nodup ∧
      ((generateMindMapFromDescription T g d3).edges.map (fun e => e.id)).Nodup) := by
  refine ⟨⟨?_, ?_⟩, ⟨?_, ?_⟩, createMindMapCanvas_ids_nodup g hg T central branches,
    ⟨generateTaskboardFromDescription_ids_nodup g hg d1, ?_⟩,
    ⟨generateRiskMatrixFromDescription_ids_nodup g hg d2, ?_⟩,
    generateMindMapFromDescription_ids_nodup g hg T d3⟩
  · rw [createTaskboardCanvas_node_ids]
    exact nodup_map_of_pairwise_lt g hg _ (List.pairwise_lt_range' _ _)
  · exact List.nodup_nil
  · rw [createRiskMatrixCanvas_node_ids]
    exact nodup_map_of_pairwise_lt g hg _ (List.pairwise_lt_range' _ _)
  · exact List.nodup_nil
  · have he : (generateTaskboardFromDescription g d1).edges = [] := by
      simp only [generateTaskboardFromDescription]
      split <;> rfl
    rw [he]
    exact List.nodup_nil
  · show (([] : List CanvasEdge).map (fun e => e.id)).Nodup
    exact List.nodup_nil

theorem gInj_injective : Function.Injective gInj := by
  intro a b h
  have := congrArg (fun s => s.data.length) h
  simpa [gInj] using this

/-- Witness for C2 at the injective supply `gInj` and a small concrete input. -/
theorem generated_ids_unique_witness :
    Function.Injective gInj ∧
    (((createMindMapCanvas TZ gInj "c" [⟨"b", ["s"]⟩]).nodes.map (fun n => n.id)).Nodup ∧
      ((createMindMapCanvas TZ gInj "c" [⟨"b", ["s"]⟩]).edges.map (fun e => e.id)).Nodup) :=
  ⟨gInj_injective,
    (generated_ids_unique gInj gInj_injective TZ [] [] "c" [⟨"b", ["s"]⟩] "" "" "").2.2.1⟩


end VA
